import Mathlib

/-!
Shallow embedding of the RENCI apsviz-ui-data service, files src/pg_utils.py
(class PGUtils) and src/server.py (FastAPI endpoints).

The database driver (psycopg2) and the HTTP framework are external
collaborators: their behaviour is modelled as explicit environment data
(round-trip outcomes, statement behaviours, exception flags) and every
Python function of the repository is translated into a total Lean function
over such an environment.  A Python function that catches all exceptions is
total with no exceptional outcome in its result type; a Python function
that can raise returns a result type with an explicit error constructor; a
function that can block forever (the unbounded retry loop) returns an
Option, with fuel counting the loop iterations it is allowed.
-/

/-- State of the PGUtils connection objects: whether self.conn and
self.cursor hold live objects (truthy) or None (pg_utils.py lines 36-37). -/
structure ConnState where
  conn : Bool
  cursor : Bool
deriving DecidableEq, Fintype

/-- Outcome of one driver round trip (cursor.execute of the version query
followed by cursor.fetchone, pg_utils.py lines 101-104): the driver returns
a truthy row, returns a falsy value (no row), or raises an exception. -/
inductive RoundTrip where
  | row
  | noRow
  | raises
deriving DecidableEq, Fintype

/-- Python truthiness of the values check_db_connection can produce:
None and False are falsy, True is truthy. -/
def truthy : Option Bool → Bool
  | some true => true
  | _ => false

/-- PGUtils.check_db_connection (pg_utils.py lines 86-116).  The result is
the Python value returned: some true for True, some false for False and
none for the Python None that ret_val keeps when the round trip succeeds
but fetchone returns a falsy value (the "did we get a value" branch at
lines 107-109 then never assigns ret_val). -/
def check_db_connection (s : ConnState) (rt : RoundTrip) : Option Bool :=
  if !s.conn || !s.cursor then
    some false
  else
    match rt with
    | RoundTrip.raises => some false
    | RoundTrip.row => some true
    | RoundTrip.noRow => none

/-- Environment for one iteration of the get_db_connection retry loop:
the round-trip outcome of the health check at the top of the loop, whether
psycopg2.connect (line 62) raises, whether setting autocommit or creating
the cursor (lines 65-68) raises, and the round-trip outcome of the health
check after a successful connect (line 71). -/
structure ConnAttempt where
  preCheck : RoundTrip
  connectRaises : Bool
  cursorRaises : Bool
  postCheck : RoundTrip
deriving DecidableEq

/-- PGUtils.get_db_connection (pg_utils.py lines 43-84), the unbounded
retry loop, with explicit fuel bounding the number of loop iterations
modelled (the Python loop has no such bound: fuel 0 stands for the loop
still running).  The environment gives the driver behaviour of iteration i.
Returns the connection state at return together with the total seconds
spent in time.sleep(5) calls (line 84 adds 5 for every iteration that did
not return). -/
def getDbConnectionAux (env : Nat → ConnAttempt) : Nat → Nat → ConnState → Option (ConnState × Nat)
  | 0, _, _ => none
  | fuel + 1, i, s =>
    let a := env i
    if truthy (check_db_connection s a.preCheck) then
      some (s, 0)
    else if a.connectRaises then
      (getDbConnectionAux env fuel (i + 1) s).map (fun r => (r.1, r.2 + 5))
    else
      let s1 : ConnState := { conn := true, cursor := s.cursor }
      if a.cursorRaises then
        (getDbConnectionAux env fuel (i + 1) s1).map (fun r => (r.1, r.2 + 5))
      else
        let s2 : ConnState := { conn := true, cursor := true }
        if truthy (check_db_connection s2 a.postCheck) then
          some (s2, 0)
        else
          (getDbConnectionAux env fuel (i + 1) s2).map (fun r => (r.1, r.2 + 5))

/-- An attempt on which the connect path of the loop necessarily succeeds:
connect and cursor creation do not raise and the post-connect health check
sees a row. -/
def goodAttempt (a : ConnAttempt) : Prop :=
  a.connectRaises = false ∧ a.cursorRaises = false ∧ a.postCheck = RoundTrip.row

/-- An attempt on which no branch of the loop body can return, whatever the
current state: neither health check sees a row. -/
def badAttempt (a : ConnAttempt) : Prop :=
  a.preCheck ≠ RoundTrip.row ∧ a.postCheck ≠ RoundTrip.row

lemma truthy_check_iff (s : ConnState) (rt : RoundTrip) :
    truthy (check_db_connection s rt) = true ↔
      (s.conn = true ∧ s.cursor = true ∧ rt = RoundTrip.row) := by
  revert s rt
  decide

lemma check_some_true (s : ConnState) (rt : RoundTrip)
    (h : truthy (check_db_connection s rt) = true) :
    check_db_connection s rt = some true := by
  revert h
  revert s rt
  decide

/-- One-step unfolding of the retry loop, used to control rewriting. -/
lemma getDbConnectionAux_succ (env : Nat → ConnAttempt) (fuel i : Nat) (s : ConnState) :
    getDbConnectionAux env (fuel + 1) i s =
      if truthy (check_db_connection s (env i).preCheck) then
        some (s, 0)
      else if (env i).connectRaises then
        (getDbConnectionAux env fuel (i + 1) s).map (fun r => (r.1, r.2 + 5))
      else if (env i).cursorRaises then
        (getDbConnectionAux env fuel (i + 1) { conn := true, cursor := s.cursor }).map
          (fun r => (r.1, r.2 + 5))
      else if truthy (check_db_connection { conn := true, cursor := true } (env i).postCheck) then
        some ({ conn := true, cursor := true }, 0)
      else
        (getDbConnectionAux env fuel (i + 1) { conn := true, cursor := true }).map
          (fun r => (r.1, r.2 + 5)) := rfl

/-- If some attempt of the environment is good, the loop returns within
that many iterations, from any starting state and index. -/
lemma getDbConnectionAux_terminates (env : Nat → ConnAttempt) :
    ∀ k i s, goodAttempt (env (i + k)) →
      ∃ r, getDbConnectionAux env (k + 1) i s = some r := by
  intro k
  induction k with
  | zero =>
    intro i s hg
    rcases hg with ⟨hc, hcur, hpost⟩
    simp only [Nat.add_zero] at hc hcur hpost
    by_cases hpre : truthy (check_db_connection s (env i).preCheck) = true
    · exact ⟨(s, 0), by rw [getDbConnectionAux_succ, if_pos hpre]⟩
    · refine ⟨({ conn := true, cursor := true }, 0), ?_⟩
      have hpost2 : truthy (check_db_connection { conn := true, cursor := true } (env i).postCheck) = true := by
        rw [hpost]; decide
      rw [getDbConnectionAux_succ, if_neg hpre, if_neg (by simp [hc]), if_neg (by simp [hcur]),
        if_pos hpost2]
  | succ k ih =>
    intro i s hg
    have hg2 : goodAttempt (env (i + 1 + k)) := by
      have h12 : i + 1 + k = i + (k + 1) := by omega
      rw [h12]; exact hg
    by_cases hpre : truthy (check_db_connection s (env i).preCheck) = true
    · exact ⟨(s, 0), by rw [getDbConnectionAux_succ, if_pos hpre]⟩
    · by_cases hc : (env i).connectRaises = true
      · obtain ⟨r, hr⟩ := ih (i + 1) s hg2
        exact ⟨(r.1, r.2 + 5), by rw [getDbConnectionAux_succ, if_neg hpre, if_pos hc, hr]; rfl⟩
      · by_cases hcur : (env i).cursorRaises = true
        · obtain ⟨r, hr⟩ := ih (i + 1) { conn := true, cursor := s.cursor } hg2
          exact ⟨(r.1, r.2 + 5), by
            rw [getDbConnectionAux_succ, if_neg hpre, if_neg hc, if_pos hcur, hr]; rfl⟩
        · by_cases hpost : truthy (check_db_connection { conn := true, cursor := true } (env i).postCheck) = true
          · exact ⟨({ conn := true, cursor := true }, 0), by
              rw [getDbConnectionAux_succ, if_neg hpre, if_neg hc, if_neg hcur, if_pos hpost]⟩
          · obtain ⟨r, hr⟩ := ih (i + 1) { conn := true, cursor := true } hg2
            exact ⟨(r.1, r.2 + 5), by
              rw [getDbConnectionAux_succ, if_neg hpre, if_neg hc, if_neg hcur, if_neg hpost, hr]; rfl⟩

/-- Whenever the loop returns, the returned state has live connection and
cursor objects and the health check that guarded the return saw a row. -/
lemma getDbConnectionAux_sound (env : Nat → ConnAttempt) :
    ∀ fuel i s s' n, getDbConnectionAux env fuel i s = some (s', n) →
      s'.conn = true ∧ s'.cursor = true ∧
        ∃ j, check_db_connection s' ((env j).preCheck) = some true ∨
             check_db_connection s' ((env j).postCheck) = some true := by
  intro fuel
  induction fuel with
  | zero => intro i s s' n h; simp [getDbConnectionAux] at h
  | succ fuel ih =>
    intro i s s' n h
    rw [getDbConnectionAux_succ] at h
    by_cases hpre : truthy (check_db_connection s (env i).preCheck) = true
    · rw [if_pos hpre] at h
      obtain ⟨rfl, rfl⟩ : s = s' ∧ (0 : Nat) = n := by simpa using h
      have htr := truthy_check_iff s (env i).preCheck |>.mp hpre
      have hsome := check_some_true s (env i).preCheck hpre
      exact ⟨htr.1, htr.2.1, ⟨i, Or.inl hsome⟩⟩
    · rw [if_neg hpre] at h
      by_cases hc : (env i).connectRaises = true
      · rw [if_pos hc] at h
        rcases Option.map_eq_some'.mp h with ⟨r, hr, hrr⟩
        have hrec := ih (i + 1) s r.1 r.2 (by rw [hr])
        have hs : r.1 = s' := congrArg Prod.fst hrr
        rw [hs] at hrec
        exact hrec
      · rw [if_neg hc] at h
        by_cases hcur : (env i).cursorRaises = true
        · rw [if_pos hcur] at h
          rcases Option.map_eq_some'.mp h with ⟨r, hr, hrr⟩
          have hrec := ih (i + 1) { conn := true, cursor := s.cursor } r.1 r.2 (by rw [hr])
          have hs : r.1 = s' := congrArg Prod.fst hrr
          rw [hs] at hrec
          exact hrec
        · rw [if_neg hcur] at h
          by_cases hpost : truthy (check_db_connection { conn := true, cursor := true } (env i).postCheck) = true
          · rw [if_pos hpost] at h
            obtain ⟨rfl, rfl⟩ : ({ conn := true, cursor := true } : ConnState) = s' ∧ (0 : Nat) = n := by
              simpa using h
            have hsome := check_some_true { conn := true, cursor := true } (env i).postCheck hpost
            exact ⟨rfl, rfl, ⟨i, Or.inr hsome⟩⟩
          · rw [if_neg hpost] at h
            rcases Option.map_eq_some'.mp h with ⟨r, hr, hrr⟩
            have hrec := ih (i + 1) { conn := true, cursor := true } r.1 r.2 (by rw [hr])
            have hs : r.1 = s' := congrArg Prod.fst hrr
            rw [hs] at hrec
            exact hrec

/-- On an environment all of whose attempts are bad, the loop never
returns, with any amount of fuel: the unbounded retry never gives up. -/
lemma getDbConnectionAux_blocks (env : Nat → ConnAttempt) (hbad : ∀ j, badAttempt (env j)) :
    ∀ fuel i s, getDbConnectionAux env fuel i s = none := by
  intro fuel
  induction fuel with
  | zero => intro i s; rfl
  | succ fuel ih =>
    intro i s
    rcases hbad i with ⟨hpre, hpost⟩
    have hpre2 : ¬ truthy (check_db_connection s (env i).preCheck) = true := by
      intro hx
      exact hpre ((truthy_check_iff s (env i).preCheck).mp hx).2.2
    have hpost2 : ¬ truthy (check_db_connection { conn := true, cursor := true } (env i).postCheck) = true := by
      intro hx
      exact hpost ((truthy_check_iff { conn := true, cursor := true } (env i).postCheck).mp hx).2.2
    rw [getDbConnectionAux_succ, if_neg hpre2]
    by_cases hc : (env i).connectRaises = true
    · rw [if_pos hc, ih]; rfl
    · rw [if_neg hc]
      by_cases hcur : (env i).cursorRaises = true
      · rw [if_pos hcur, ih]; rfl
      · rw [if_neg hcur, if_neg hpost2, ih]; rfl

/-- Whenever the loop returns, the seconds it slept are a multiple of the
fixed 5-second interval of time.sleep(5). -/
lemma getDbConnectionAux_sleep (env : Nat → ConnAttempt) :
    ∀ fuel i s r, getDbConnectionAux env fuel i s = some r → 5 ∣ r.2 := by
  intro fuel
  induction fuel with
  | zero => intro i s r h; simp [getDbConnectionAux] at h
  | succ fuel ih =>
    intro i s r h
    rw [getDbConnectionAux_succ] at h
    by_cases hpre : truthy (check_db_connection s (env i).preCheck) = true
    · rw [if_pos hpre] at h
      obtain rfl : r = (s, 0) := by simpa using h.symm
      exact ⟨0, rfl⟩
    · rw [if_neg hpre] at h
      by_cases hc : (env i).connectRaises = true
      · rw [if_pos hc] at h
        rcases Option.map_eq_some'.mp h with ⟨r0, hr0, hrr⟩
        have h5 := ih (i + 1) s r0 hr0
        rw [← hrr]
        exact Nat.dvd_add h5 ⟨1, rfl⟩
      · rw [if_neg hc] at h
        by_cases hcur : (env i).cursorRaises = true
        · rw [if_pos hcur] at h
          rcases Option.map_eq_some'.mp h with ⟨r0, hr0, hrr⟩
          have h5 := ih (i + 1) { conn := true, cursor := s.cursor } r0 hr0
          rw [← hrr]
          exact Nat.dvd_add h5 ⟨1, rfl⟩
        · rw [if_neg hcur] at h
          by_cases hpost : truthy (check_db_connection { conn := true, cursor := true } (env i).postCheck) = true
          · rw [if_pos hpost] at h
            obtain rfl : r = (({ conn := true, cursor := true } : ConnState), 0) := by
              simpa using h.symm
            exact ⟨0, rfl⟩
          · rw [if_neg hpost] at h
            rcases Option.map_eq_some'.mp h with ⟨r0, hr0, hrr⟩
            have h5 := ih (i + 1) { conn := true, cursor := true } r0 hr0
            rw [← hrr]
            exact Nat.dvd_add h5 ⟨1, rfl⟩

/-- A Python value that exec_sql can return (pg_utils.py lines 135-168):
the None that cursor.execute returns on a non-select success, a fetched
list of rows (each row a list of cells), or an int sentinel (-1 for an
empty result at line 161, -2 on a caught exception at line 165). -/
inductive PyResult (Cell : Type) where
  | pyNone
  | rows (rs : List (List Cell))
  | intVal (n : Int)
deriving DecidableEq

/-- Driver behaviour of one statement execution: whether cursor.execute
raises, whether cursor.fetchall raises, the text of the exception when one
is raised, and the rows fetchall yields otherwise. -/
structure StmtBehavior (Cell : Type) where
  execRaises : Bool
  fetchRaises : Bool
  errMsg : String
  rows : List (List Cell)

/-- The message exec_sql logs when execution or fetch raises
(pg_utils.py line 164). -/
def errorLogMsg (sqlStmt errMsg : String) : String :=
  "Error detected executing SQL: " ++ sqlStmt ++ ". " ++ errMsg

/-- PGUtils.exec_sql (pg_utils.py lines 135-168).  It first re-ensures the
connection through get_db_connection (line 147, outside the try block),
which may block forever (none).  Then it executes the statement and, for a
select, fetches the rows; every exception of execution or fetch is caught
by the except block at line 163, logged, and turned into the -2 sentinel,
so the result type has no exceptional outcome.  The result carries the
connection state the statement ran on, the returned Python value, and the
log lines emitted by the try block. -/
def exec_sql {Cell : Type} (connEnv : Nat → ConnAttempt) (fuel : Nat) (s : ConnState)
    (b : StmtBehavior Cell) (sql_stmt : String) (is_select : Bool) :
    Option (ConnState × PyResult Cell × List String) :=
  match getDbConnectionAux connEnv fuel 0 s with
  | none => none
  | some (s', _) =>
    if b.execRaises then
      some (s', PyResult.intVal (-2), [errorLogMsg sql_stmt b.errMsg])
    else if is_select then
      if b.fetchRaises then
        some (s', PyResult.intVal (-2), [errorLogMsg sql_stmt b.errMsg])
      else if b.rows.isEmpty then
        some (s', PyResult.intVal (-1), [])
      else
        some (s', PyResult.rows b.rows, [])
    else
      some (s', PyResult.pyNone, [])

/-- Outcome of the Python expression ret_val[0][0] applied to an exec_sql
result (pg_utils.py line 181): a normally returned cell, a normally
returned int (expressible so that the specified sentinel passthrough can
be stated, though the code never produces it), a TypeError (subscripting
an int or None), or an IndexError (subscripting an empty list). -/
inductive CatalogOutcome (Cell : Type) where
  | value (c : Cell)
  | intReturn (n : Int)
  | typeError
  | indexError
deriving DecidableEq

/-- Python semantics of ret_val[0][0]: ints and None are not subscriptable
(TypeError), an empty list raises IndexError, otherwise the first cell of
the first row is returned. -/
def firstCell {Cell : Type} : PyResult Cell → CatalogOutcome Cell
  | PyResult.pyNone => CatalogOutcome.typeError
  | PyResult.intVal _ => CatalogOutcome.typeError
  | PyResult.rows [] => CatalogOutcome.indexError
  | PyResult.rows ([] :: _) => CatalogOutcome.indexError
  | PyResult.rows ((c :: _) :: _) => CatalogOutcome.value c

/-- The stored-procedure invocation text built by
PGUtils.get_terria_map_catalog_data (pg_utils.py line 178).  The five
filter arguments are interpolated verbatim (the callers pass either the
literal null or a quoted string); the limit is interpolated through str(),
modelled for the int values the server passes. -/
def buildCatalogSql (grid_type event_type instance_name run_date end_date : String)
    (limit : Int) : String :=
  "SELECT public.get_terria_data_json(_grid_type:=" ++ grid_type ++
    ", _event_type:=" ++ event_type ++
    ", _instance_name:=" ++ instance_name ++
    ", _run_date:=" ++ run_date ++
    ", _end_date:=" ++ end_date ++
    ", _limit:=" ++ toString limit ++ ")"

/-- PGUtils.get_terria_map_catalog_data (pg_utils.py lines 170-181):
builds the invocation text and returns self.exec_sql(sql)[0][0], the
subscripting applied to whatever exec_sql returned. -/
def get_terria_map_catalog_data {Cell : Type} (connEnv : Nat → ConnAttempt) (fuel : Nat)
    (s : ConnState) (b : StmtBehavior Cell)
    (grid_type event_type instance_name run_date end_date : String) (limit : Int) :
    Option (ConnState × CatalogOutcome Cell × List String) :=
  match exec_sql connEnv fuel s b
      (buildCatalogSql grid_type event_type instance_name run_date end_date limit) true with
  | none => none
  | some (s', r, log) => some (s', firstCell r, log)

/-- The single-quote character, written by code point to keep source text
plain. -/
def singleQuote : String := (Char.ofNat 39).toString

/-- The filter preparation the two endpoints apply to each optional query
parameter (server.py lines 88-92 and 136-140): Python "not x" is true for
both None and the empty string, so both become the literal null; any other
string is wrapped in single quotes. -/
def prepFilter : Option String → String
  | none => "null"
  | some v => if v = "" then "null" else singleQuote ++ v ++ singleQuote

/-- Maps a query parameter supplied as the empty string to an omitted one
and leaves every other parameter unchanged. -/
def omitEmpty : Option String → Option String
  | none => none
  | some v => if v = "" then none else some v

/-- The FastAPI default for the limit query parameter, applied by the
framework when the parameter is omitted (server.py lines 68 and 117). -/
def defaultLimit : Int := 4

/-- The stored-procedure invocation text produced by a GET /get_ui_data
request (server.py lines 88-95 feeding pg_utils.py line 178). -/
def uiDataStmt (grid_type event_type instance_name run_date end_date : Option String)
    (limit : Int) : String :=
  buildCatalogSql (prepFilter grid_type) (prepFilter event_type) (prepFilter instance_name)
    (prepFilter run_date) (prepFilter end_date) limit

/-- The stored-procedure invocation text produced by a GET /get_ui_data_file
request (server.py lines 136-147 feeding pg_utils.py line 178). -/
def uiDataFileStmt (grid_type event_type instance_name run_date end_date : Option String)
    (limit : Int) : String :=
  buildCatalogSql (prepFilter grid_type) (prepFilter event_type) (prepFilter instance_name)
    (prepFilter run_date) (prepFilter end_date) limit

/-- Outcome of the try block of an endpoint: the value the catalog query
produced, or some exception raised during construction, query or file
write. -/
inductive TryOutcome (Cell : Type) where
  | ok (v : Cell)
  | raises
deriving DecidableEq

/-- The FileResponse the file endpoint returns (server.py line 161).  The
statusCode field is the HTTP status the response actually carries; the
FileResponse constructor is called without a status_code argument, and the
framework default for it is 200. -/
structure FileResponseModel where
  path : String
  filename : String
  mediaType : String
  statusCode : Nat
deriving DecidableEq

/-- What a GET /get_ui_data_file request leaves behind: the value of the
local status_code variable at return, the data written to the output file
(none when the try block raised before or at the write), and the
FileResponse returned. -/
structure FileEndpointResult where
  statusVar : Nat
  fileWritten : Option String
  response : FileResponseModel
deriving DecidableEq

/-- The server-side endpoint get_terria_map_catalog_data_file (server.py
lines 110-161).  file_path is os.path.join of the server directory and the
file name (line 133).  On success the JSON result is dumped to the file
and status_code stays 200; on an exception status_code is set to 500
(line 158) -- but the FileResponse built at line 161 is not passed
status_code, so the response carries the framework default 200 either
way. -/
def get_terria_map_catalog_data_file (outcome : TryOutcome String)
    (file_name serverDir : String) : FileEndpointResult :=
  let file_path := serverDir ++ "/" ++ file_name
  match outcome with
  | TryOutcome.ok v =>
    { statusVar := 200
      fileWritten := some v
      response := { path := file_path, filename := file_name
                    mediaType := "text/json", statusCode := 200 } }
  | TryOutcome.raises =>
    { statusVar := 500
      fileWritten := none
      response := { path := file_path, filename := file_name
                    mediaType := "text/json", statusCode := 200 } }

/-- Which of self.cursor and self.conn are live objects when the PGUtils
destructor runs (pg_utils.py lines 127 and 130). -/
structure DelState where
  cursorPresent : Bool
  connPresent : Bool

/-- Driver behaviour of the two close calls in the destructor, with the
text of the exception raised when one fails. -/
structure CloseBehavior where
  cursorCloseRaises : Bool
  connCloseRaises : Bool
  errText : String

/-- The message the destructor logs when a close raises
(pg_utils.py line 133). -/
def delErrMsg (errText : String) : String :=
  "Error detected closing cursor or connection. " ++ errText

/-- Result of running the PGUtils destructor: which closes completed,
whether an exception was raised inside the try block (and caught by the
except at line 132), and the log lines emitted.  The destructor itself has
no exceptional outcome: the except block catches everything. -/
structure DelResult where
  cursorClosed : Bool
  connClosed : Bool
  caught : Bool
  log : List String
deriving DecidableEq

/-- PGUtils del (pg_utils.py lines 118-133): close the cursor if present,
then the connection if present, both inside one try block; a raise from
either close skips the rest of the block and is caught and logged only. -/
def pgDel (s : DelState) (b : CloseBehavior) : DelResult :=
  if s.cursorPresent then
    if b.cursorCloseRaises then
      { cursorClosed := false, connClosed := false, caught := true, log := [delErrMsg b.errText] }
    else if s.connPresent then
      if b.connCloseRaises then
        { cursorClosed := true, connClosed := false, caught := true, log := [delErrMsg b.errText] }
      else
        { cursorClosed := true, connClosed := true, caught := false, log := [] }
    else
      { cursorClosed := true, connClosed := false, caught := false, log := [] }
  else
    if s.connPresent then
      if b.connCloseRaises then
        { cursorClosed := false, connClosed := false, caught := true, log := [delErrMsg b.errText] }
      else
        { cursorClosed := false, connClosed := true, caught := false, log := [] }
    else
      { cursorClosed := false, connClosed := false, caught := false, log := [] }

/-- Complete case analysis of a returning exec_sql call. -/
lemma exec_sql_cases {Cell : Type} (connEnv : Nat → ConnAttempt) (fuel : Nat) (s : ConnState)
    (b : StmtBehavior Cell) (stmt : String) (sel : Bool)
    (s' : ConnState) (r : PyResult Cell) (log : List String)
    (h : exec_sql connEnv fuel s b stmt sel = some (s', r, log)) :
    (∃ n, getDbConnectionAux connEnv fuel 0 s = some (s', n)) ∧
    ((b.execRaises = true ∨ (sel = true ∧ b.fetchRaises = true)) →
      r = PyResult.intVal (-2) ∧ log = [errorLogMsg stmt b.errMsg]) ∧
    (b.execRaises = false → sel = true → b.fetchRaises = false → b.rows = [] →
      r = PyResult.intVal (-1) ∧ log = []) ∧
    (b.execRaises = false → sel = true → b.fetchRaises = false → b.rows ≠ [] →
      r = PyResult.rows b.rows ∧ log = []) ∧
    (b.execRaises = false → sel = false → r = PyResult.pyNone ∧ log = []) := by
  simp only [exec_sql] at h
  cases hdb : getDbConnectionAux connEnv fuel 0 s with
  | none => rw [hdb] at h; simp at h
  | some p =>
    rw [hdb] at h
    dsimp only at h
    by_cases hex : b.execRaises = true
    · rw [if_pos hex] at h
      obtain ⟨h1, h2, h3⟩ : p.1 = s' ∧ PyResult.intVal (-2) = r ∧ [errorLogMsg stmt b.errMsg] = log := by
        simpa using h
      refine ⟨⟨p.2, by rw [← h1]⟩, fun _ => ⟨h2.symm, h3.symm⟩, ?_, ?_, ?_⟩
      · intro hc; rw [hc] at hex; exact Bool.noConfusion hex
      · intro hc; rw [hc] at hex; exact Bool.noConfusion hex
      · intro hc; rw [hc] at hex; exact Bool.noConfusion hex
    · have hex0 : b.execRaises = false := by
        cases hb : b.execRaises
        · rfl
        · exact absurd hb hex
      rw [if_neg hex] at h
      by_cases hsel : sel = true
      · rw [if_pos hsel] at h
        by_cases hfe : b.fetchRaises = true
        · rw [if_pos hfe] at h
          obtain ⟨h1, h2, h3⟩ : p.1 = s' ∧ PyResult.intVal (-2) = r ∧ [errorLogMsg stmt b.errMsg] = log := by
            simpa using h
          refine ⟨⟨p.2, by rw [← h1]⟩, fun _ => ⟨h2.symm, h3.symm⟩, ?_, ?_, ?_⟩
          · intro _ _ hc; rw [hc] at hfe; exact Bool.noConfusion hfe
          · intro _ _ hc; rw [hc] at hfe; exact Bool.noConfusion hfe
          · intro _ hc; rw [hsel] at hc; cases hc
        · rw [if_neg hfe] at h
          have hfe0 : b.fetchRaises = false := by
            cases hb : b.fetchRaises
            · rfl
            · exact absurd hb hfe
          by_cases hrows : b.rows = []
          · rw [if_pos (by simp [hrows])] at h
            obtain ⟨h1, h2, h3⟩ : p.1 = s' ∧ PyResult.intVal (-1) = r ∧ ([] : List String) = log := by
              simpa using h
            refine ⟨⟨p.2, by rw [← h1]⟩, ?_, fun _ _ _ _ => ⟨h2.symm, h3.symm⟩, ?_, ?_⟩
            · intro hc
              rcases hc with hc | ⟨_, hc⟩
              · rw [hc] at hex0; cases hex0
              · rw [hc] at hfe0; cases hfe0
            · intro _ _ _ hc; exact absurd hrows hc
            · intro _ hc; rw [hsel] at hc; cases hc
          · rw [if_neg (by simp [hrows])] at h
            obtain ⟨h1, h2, h3⟩ : p.1 = s' ∧ PyResult.rows b.rows = r ∧ ([] : List String) = log := by
              simpa using h
            refine ⟨⟨p.2, by rw [← h1]⟩, ?_, ?_, fun _ _ _ _ => ⟨h2.symm, h3.symm⟩, ?_⟩
            · intro hc
              rcases hc with hc | ⟨_, hc⟩
              · rw [hc] at hex0; cases hex0
              · rw [hc] at hfe0; cases hfe0
            · intro _ _ _ hc; exact absurd hc hrows
            · intro _ hc; rw [hsel] at hc; cases hc
      · rw [if_neg hsel] at h
        have hsel0 : sel = false := by
          cases hb : sel
          · rfl
          · exact absurd hb hsel
        obtain ⟨h1, h2, h3⟩ : p.1 = s' ∧ PyResult.pyNone = r ∧ ([] : List String) = log := by
          simpa using h
        refine ⟨⟨p.2, by rw [← h1]⟩, ?_, ?_, ?_, fun _ _ => ⟨h2.symm, h3.symm⟩⟩
        · intro hc
          rcases hc with hc | ⟨hc, _⟩
          · rw [hc] at hex0; cases hex0
          · rw [hc] at hsel0; cases hsel0
        · intro _ hc; rw [hc] at hsel0; cases hsel0
        · intro _ hc; rw [hc] at hsel0; cases hsel0

/-- A driver environment whose every health check sees a row and whose
connects never raise: a steadily reachable database. -/
def liveEnv : Nat → ConnAttempt :=
  fun _ => { preCheck := RoundTrip.row, connectRaises := false, cursorRaises := false,
             postCheck := RoundTrip.row }

/-- A driver environment on which the first health check raises (for
example on a fresh instance without a connection the check is short of)
but connecting succeeds. -/
def goodEnv : Nat → ConnAttempt :=
  fun _ => { preCheck := RoundTrip.raises, connectRaises := false, cursorRaises := false,
             postCheck := RoundTrip.row }

/-- A statement behaviour whose execution raises. -/
def bBoom : StmtBehavior String :=
  { execRaises := true, fetchRaises := false, errMsg := "boom", rows := [] }

/-- A statement behaviour that succeeds and fetches zero rows. -/
def bEmpty : StmtBehavior String :=
  { execRaises := false, fetchRaises := false, errMsg := "", rows := [] }

/-- A statement behaviour that succeeds and fetches one row of one cell. -/
def bOneRow : StmtBehavior String :=
  { execRaises := false, fetchRaises := false, errMsg := "", rows := [["payload"]] }

/-- C2: for every statement text, a returning exec_sql call yields the -2
execution-error sentinel exactly when execution (or, on a read, the fetch)
raised, and in that case its log is the single line that embeds the
offending statement text.  The embedding of exec_sql is total over every
driver behaviour, with no exceptional outcome in its result type: the
except block of pg_utils.py line 163 catches every exception of execution
and fetch, so none propagates to the caller. -/
theorem exec_sql_catches_spec {Cell : Type} (connEnv : Nat → ConnAttempt) (fuel : Nat)
    (s : ConnState) (b : StmtBehavior Cell) (stmt : String) (sel : Bool)
    (s' : ConnState) (r : PyResult Cell) (log : List String)
    (h : exec_sql connEnv fuel s b stmt sel = some (s', r, log)) :
    ((b.execRaises = true ∨ (sel = true ∧ b.fetchRaises = true)) ↔ r = PyResult.intVal (-2)) ∧
    ((b.execRaises = true ∨ (sel = true ∧ b.fetchRaises = true)) →
      (log = [errorLogMsg stmt b.errMsg] ∧
        ∃ pre post, errorLogMsg stmt b.errMsg = pre ++ stmt ++ post)) := by
  obtain ⟨_, h2, h3, h4, h5⟩ := exec_sql_cases connEnv fuel s b stmt sel s' r log h
  constructor
  · constructor
    · intro hr
      exact (h2 hr).1
    · intro hr
      cases hex : b.execRaises with
      | true => exact Or.inl rfl
      | false =>
        cases hsel : sel with
        | false =>
          have hn := (h5 hex hsel).1
          rw [hn] at hr
          exact PyResult.noConfusion hr
        | true =>
          cases hfe : b.fetchRaises with
          | true => exact Or.inr ⟨rfl, rfl⟩
          | false =>
            by_cases hrows : b.rows = []
            · have hn := (h3 hex hsel hfe hrows).1
              rw [hn] at hr
              injection hr with hv
              exact absurd hv (by decide)
            · have hn := (h4 hex hsel hfe hrows).1
              rw [hn] at hr
              exact PyResult.noConfusion hr
  · intro hr
    refine ⟨(h2 hr).2, "Error detected executing SQL: ", ". " ++ b.errMsg, ?_⟩
    simp [errorLogMsg, String.append_assoc]

/-- C2 witness: a concrete raising execution on a live connection. -/
theorem exec_sql_catches_spec_witness :
    exec_sql liveEnv 1 { conn := true, cursor := true } bBoom "select junk" true =
      some ({ conn := true, cursor := true }, PyResult.intVal (-2),
        [errorLogMsg "select junk" bBoom.errMsg]) ∧
    ((bBoom.execRaises = true ∨ (true = true ∧ bBoom.fetchRaises = true)) ↔
      (PyResult.intVal (-2) : PyResult String) = PyResult.intVal (-2)) :=
  ⟨rfl,
   (exec_sql_catches_spec liveEnv 1 { conn := true, cursor := true } bBoom "select junk" true
      { conn := true, cursor := true } (PyResult.intVal (-2))
      [errorLogMsg "select junk" bBoom.errMsg] rfl).1⟩

/-- C3: a read statement that executes without raising and fetches zero
rows makes exec_sql return the -1 empty-result sentinel, which is neither
the -2 execution-error sentinel nor any row sequence. -/
theorem exec_sql_empty_sentinel {Cell : Type} (connEnv : Nat → ConnAttempt) (fuel : Nat)
    (s : ConnState) (b : StmtBehavior Cell) (stmt : String)
    (s' : ConnState) (r : PyResult Cell) (log : List String)
    (hex : b.execRaises = false) (hfe : b.fetchRaises = false) (hrows : b.rows = [])
    (h : exec_sql connEnv fuel s b stmt true = some (s', r, log)) :
    r = PyResult.intVal (-1) ∧ r ≠ PyResult.intVal (-2) ∧ (∀ rs, r ≠ PyResult.rows rs) := by
  obtain ⟨_, _, h3, _, _⟩ := exec_sql_cases connEnv fuel s b stmt true s' r log h
  have hr := (h3 hex rfl hfe hrows).1
  refine ⟨hr, ?_, ?_⟩
  · rw [hr]
    intro hco
    injection hco with hv
    exact absurd hv (by decide)
  · intro rs
    rw [hr]
    intro hco
    exact PyResult.noConfusion hco

/-- C3 witness: a concrete empty read on a live connection. -/
theorem exec_sql_empty_sentinel_witness :
    exec_sql liveEnv 1 { conn := true, cursor := true } bEmpty "select nothing" true =
      some ({ conn := true, cursor := true }, PyResult.intVal (-1), []) ∧
    (PyResult.intVal (-1) : PyResult String) ≠ PyResult.intVal (-2) ∧
    (PyResult.intVal (-1) : PyResult String) ≠ PyResult.rows [] :=
  ⟨rfl,
   (exec_sql_empty_sentinel liveEnv 1 { conn := true, cursor := true } bEmpty "select nothing"
      { conn := true, cursor := true } (PyResult.intVal (-1)) [] rfl rfl rfl rfl).2.1,
   (exec_sql_empty_sentinel liveEnv 1 { conn := true, cursor := true } bEmpty "select nothing"
      { conn := true, cursor := true } (PyResult.intVal (-1)) [] rfl rfl rfl rfl).2.2 []⟩

/-- The subscripting ret_val[0][0] never evaluates to a normally returned
int: an int result of exec_sql is not subscriptable. -/
lemma firstCell_ne_intReturn {Cell : Type} (r : PyResult Cell) (n : Int) :
    firstCell r ≠ CatalogOutcome.intReturn n := by
  cases r with
  | pyNone => exact fun hc => CatalogOutcome.noConfusion hc
  | intVal m => exact fun hc => CatalogOutcome.noConfusion hc
  | rows rs =>
    cases rs with
    | nil => exact fun hc => CatalogOutcome.noConfusion hc
    | cons row rest =>
      cases row with
      | nil => exact fun hc => CatalogOutcome.noConfusion hc
      | cons c cs => exact fun hc => CatalogOutcome.noConfusion hc

/-- C1 (amended): when exec_sql returns row data, the catalog query builder
returns the first column of the first row; but when exec_sql returns one of
the int sentinels (-2 on error, -1 on an empty result), the subscripting at
pg_utils.py line 181 raises a TypeError instead of returning the sentinel
unchanged, and no int is ever returned normally. -/
theorem catalog_firstCell_spec {Cell : Type} (connEnv : Nat → ConnAttempt) (fuel : Nat)
    (s : ConnState) (b : StmtBehavior Cell)
    (g e i r d : String) (l : Int)
    (s' : ConnState) (out : CatalogOutcome Cell) (log : List String)
    (h : get_terria_map_catalog_data connEnv fuel s b g e i r d l = some (s', out, log)) :
    ((b.execRaises = true ∨ b.fetchRaises = true) → out = CatalogOutcome.typeError) ∧
    (b.execRaises = false → b.fetchRaises = false → b.rows = [] →
      out = CatalogOutcome.typeError) ∧
    (∀ c cs rest, b.execRaises = false → b.fetchRaises = false → b.rows = (c :: cs) :: rest →
      out = CatalogOutcome.value c) ∧
    (∀ n, out ≠ CatalogOutcome.intReturn n) := by
  have hmatch : ∃ s0 r0 log0, exec_sql connEnv fuel s b
      (buildCatalogSql g e i r d l) true = some (s0, r0, log0) ∧
      s0 = s' ∧ firstCell r0 = out ∧ log0 = log := by
    simp only [get_terria_map_catalog_data] at h
    cases hex : exec_sql connEnv fuel s b (buildCatalogSql g e i r d l) true with
    | none => rw [hex] at h; simp at h
    | some p =>
      obtain ⟨s0, r0, log0⟩ := p
      rw [hex] at h
      dsimp only at h
      obtain ⟨h1, h2, h3⟩ : s0 = s' ∧ firstCell r0 = out ∧ log0 = log := by simpa using h
      exact ⟨s0, r0, log0, rfl, h1, h2, h3⟩
  obtain ⟨s0, r0, log0, hex, hs0, hfc, hlog⟩ := hmatch
  obtain ⟨_, h2, h3, h4, _⟩ :=
    exec_sql_cases connEnv fuel s b (buildCatalogSql g e i r d l) true s0 r0 log0 hex
  refine ⟨?_, ?_, ?_, ?_⟩
  · intro hr
    have hr2 : r0 = PyResult.intVal (-2) := by
      rcases hr with hr | hr
      · exact (h2 (Or.inl hr)).1
      · exact (h2 (Or.inr ⟨rfl, hr⟩)).1
    rw [← hfc, hr2]
    rfl
  · intro hex1 hfe hrows
    have hr1 : r0 = PyResult.intVal (-1) := (h3 hex1 rfl hfe hrows).1
    rw [← hfc, hr1]
    rfl
  · intro c cs rest hex1 hfe hrows
    have hr1 : r0 = PyResult.rows b.rows :=
      (h4 hex1 rfl hfe (by rw [hrows]; exact fun hc => List.noConfusion hc)).1
    rw [← hfc, hr1, hrows]
    rfl
  · intro n
    rw [← hfc]
    exact firstCell_ne_intReturn r0 n

/-- C1 counterexample: on a live connection with a raising execution,
exec_sql yields the -2 sentinel, and the catalog query builder turns it
into a TypeError rather than returning the sentinel value unchanged. -/
theorem catalog_sentinel_not_propagated_cex :
    get_terria_map_catalog_data liveEnv 1 { conn := true, cursor := true } bBoom
        "null" "null" "null" "null" "null" 4 =
      some ({ conn := true, cursor := true }, CatalogOutcome.typeError,
        [errorLogMsg (buildCatalogSql "null" "null" "null" "null" "null" 4) bBoom.errMsg]) ∧
    (CatalogOutcome.typeError : CatalogOutcome String) ≠ CatalogOutcome.intReturn (-2) := by
  exact ⟨rfl, fun hc => CatalogOutcome.noConfusion hc⟩

/-- C1 witness: a concrete one-row result whose first cell is returned. -/
theorem catalog_firstCell_spec_witness :
    get_terria_map_catalog_data liveEnv 1 { conn := true, cursor := true } bOneRow
        "null" "null" "null" "null" "null" 4 =
      some ({ conn := true, cursor := true }, CatalogOutcome.value "payload", []) ∧
    (CatalogOutcome.value "payload" : CatalogOutcome String) = CatalogOutcome.value "payload" :=
  ⟨rfl,
   (catalog_firstCell_spec liveEnv 1 { conn := true, cursor := true } bOneRow
      "null" "null" "null" "null" "null" 4 { conn := true, cursor := true }
      (CatalogOutcome.value "payload") [] rfl).2.2.1 "payload" [] [] rfl rfl rfl⟩

/-- C4 (amended): check_db_connection returns False when no connection or
cursor exists and when the round trip raises, True exactly when a row is
returned, and Python None -- a falsy value that is not a boolean -- when
the round trip succeeds but returns no row; no exception propagates (the
embedding is total, the except block at pg_utils.py line 111 catching
everything the round trip raises). -/
theorem check_db_connection_spec (s : ConnState) (rt : RoundTrip) :
    ((s.conn = false ∨ s.cursor = false) → check_db_connection s rt = some false) ∧
    (s.conn = true → s.cursor = true →
      ((check_db_connection s rt = some true ↔ rt = RoundTrip.row) ∧
       (rt = RoundTrip.raises → check_db_connection s rt = some false) ∧
       (rt = RoundTrip.noRow → check_db_connection s rt = none))) := by
  revert s rt
  decide

/-- C4 counterexample: with a live connection and cursor and a round trip
that succeeds with no row, check_db_connection returns neither True nor
False but the Python None, so it does not return a boolean. -/
theorem check_db_connection_not_boolean_cex :
    check_db_connection { conn := true, cursor := true } RoundTrip.noRow ≠ some true ∧
    check_db_connection { conn := true, cursor := true } RoundTrip.noRow ≠ some false ∧
    check_db_connection { conn := true, cursor := true } RoundTrip.noRow = none := by
  decide

/-- C4 witness: a state without a connection yields False. -/
theorem check_db_connection_spec_witness :
    check_db_connection { conn := false, cursor := true } RoundTrip.row = some false :=
  (check_db_connection_spec { conn := false, cursor := true } RoundTrip.row).1 (Or.inl rfl)

/-- C5: when some attempt of the environment succeeds, the retry loop of
get_db_connection terminates within that attempt; whenever it returns, the
post-state is healthy -- live connection and cursor, with the guarding
health check having returned True -- so it never returns unhealthy; on an
environment where no attempt can succeed it never returns, however much
fuel it is given (no upper retry bound); and all its waiting is made of
fixed 5-second sleeps. -/
theorem getDbConnection_spec (env : Nat → ConnAttempt) :
    (∀ k i s, goodAttempt (env (i + k)) →
      ∃ r, getDbConnectionAux env (k + 1) i s = some r) ∧
    (∀ fuel i s s' n, getDbConnectionAux env fuel i s = some (s', n) →
      s'.conn = true ∧ s'.cursor = true ∧
        ∃ j, check_db_connection s' ((env j).preCheck) = some true ∨
             check_db_connection s' ((env j).postCheck) = some true) ∧
    ((∀ j, badAttempt (env j)) → ∀ fuel i s, getDbConnectionAux env fuel i s = none) ∧
    (∀ fuel i s r, getDbConnectionAux env fuel i s = some r → 5 ∣ r.2) :=
  ⟨getDbConnectionAux_terminates env, getDbConnectionAux_sound env,
   fun hbad => getDbConnectionAux_blocks env hbad, getDbConnectionAux_sleep env⟩

/-- C5 witness: from a dead initial state under an environment whose first
attempt connects, the loop returns the healthy state at once. -/
theorem getDbConnection_spec_witness :
    getDbConnectionAux goodEnv 1 0 { conn := false, cursor := false } =
      some ({ conn := true, cursor := true }, 0) ∧
    ({ conn := true, cursor := true } : ConnState).conn = true :=
  ⟨rfl, ((getDbConnection_spec goodEnv).2.1 1 0 { conn := false, cursor := false }
      { conn := true, cursor := true } 0 rfl).1⟩

/-- C6: exec_sql runs its statement only after get_db_connection has
returned, on exactly the state that call returned, and any such state is
healthy: live connection and cursor with a health check that saw a row.
When the retry loop does not return, no statement is executed at all, so a
statement is never executed on a known-dead connection. -/
theorem exec_sql_healthy_before_execute {Cell : Type} (connEnv : Nat → ConnAttempt)
    (fuel : Nat) (s : ConnState) (b : StmtBehavior Cell) (stmt : String) (sel : Bool) :
    (∀ s' r log, exec_sql connEnv fuel s b stmt sel = some (s', r, log) →
      (∃ n, getDbConnectionAux connEnv fuel 0 s = some (s', n)) ∧
      (s'.conn = true ∧ s'.cursor = true ∧
        ∃ j, check_db_connection s' ((connEnv j).preCheck) = some true ∨
             check_db_connection s' ((connEnv j).postCheck) = some true)) ∧
    (getDbConnectionAux connEnv fuel 0 s = none →
      exec_sql connEnv fuel s b stmt sel = none) := by
  constructor
  · intro s' r log h
    obtain ⟨⟨n, hdb⟩, _, _, _, _⟩ := exec_sql_cases connEnv fuel s b stmt sel s' r log h
    have hsound := getDbConnectionAux_sound connEnv fuel 0 s s' n hdb
    exact ⟨⟨n, hdb⟩, hsound⟩
  · intro hnone
    simp only [exec_sql, hnone]

/-- C6 witness: a concrete read on a live connection runs on the healthy
state the connection manager produced. -/
theorem exec_sql_healthy_before_execute_witness :
    exec_sql liveEnv 1 { conn := true, cursor := true } bOneRow "q" true =
      some ({ conn := true, cursor := true }, PyResult.rows [["payload"]], []) ∧
    ({ conn := true, cursor := true } : ConnState).cursor = true :=
  ⟨rfl, ((exec_sql_healthy_before_execute liveEnv 1 { conn := true, cursor := true } bOneRow
      "q" true).1 { conn := true, cursor := true } (PyResult.rows [["payload"]]) [] rfl).2.2.1⟩

/-- C7: evaluation of the file endpoint at a failing request and at a
successful one.  On failure the handler sets its local status_code
variable to 500 (server.py line 158), but the FileResponse built at line
161 is not passed that variable, so the response carries the framework
default status 200 either way -- the slip this theorem records; the
response still returns the file with media type text/json, and on success
the JSON result is written to the file and the status is 200. -/
theorem uiDataFile_status_eval :
    (get_terria_map_catalog_data_file TryOutcome.raises "apsviz.json" "/app/src").statusVar
        = 500 ∧
    (get_terria_map_catalog_data_file TryOutcome.raises "apsviz.json" "/app/src").response.statusCode
        = 200 ∧
    (get_terria_map_catalog_data_file TryOutcome.raises "apsviz.json" "/app/src").response.mediaType
        = "text/json" ∧
    (get_terria_map_catalog_data_file TryOutcome.raises "apsviz.json" "/app/src").fileWritten
        = none ∧
    (get_terria_map_catalog_data_file (TryOutcome.ok "[]") "apsviz.json" "/app/src").fileWritten
        = some "[]" ∧
    (get_terria_map_catalog_data_file (TryOutcome.ok "[]") "apsviz.json" "/app/src").response.statusCode
        = 200 ∧
    (get_terria_map_catalog_data_file (TryOutcome.ok "[]") "apsviz.json" "/app/src").response.path
        = "/app/src/apsviz.json" :=
  ⟨rfl, rfl, rfl, rfl, rfl, rfl, rfl⟩

/-- C8: a GET /get_ui_data request with every filter omitted, under the
framework default limit of 4, produces the invocation text that passes the
literal null for each of the five filter arguments and 4 for the limit. -/
theorem uiData_omitted_filters_stmt :
    uiDataStmt none none none none none defaultLimit =
      "SELECT public.get_terria_data_json(_grid_type:=null, _event_type:=null, _instance_name:=null, _run_date:=null, _end_date:=null, _limit:=4)" :=
  rfl

/-- C9: the destructor performs a best-effort close of the cursor and then
of the connection.  Its embedding is total with no exceptional outcome --
the except block at pg_utils.py line 132 catches any close error -- and it
logs exactly one line when a close raised and nothing otherwise; each
close happens exactly when its object is present and nothing raised
earlier in the try block, so close failures are logged only and never
reach the caller. -/
theorem pgDel_spec (s : DelState) (b : CloseBehavior) :
    (pgDel s b).log = (if (pgDel s b).caught then [delErrMsg b.errText] else []) ∧
    (pgDel s b).caught = ((s.cursorPresent && b.cursorCloseRaises) ||
      (!(s.cursorPresent && b.cursorCloseRaises) && s.connPresent && b.connCloseRaises)) ∧
    (pgDel s b).cursorClosed = (s.cursorPresent && !b.cursorCloseRaises) ∧
    (pgDel s b).connClosed = (!(s.cursorPresent && b.cursorCloseRaises) &&
      s.connPresent && !b.connCloseRaises) := by
  obtain ⟨cp, kp⟩ := s
  obtain ⟨cr, kr, msg⟩ := b
  cases cp <;> cases kp <;> cases cr <;> cases kr <;> exact ⟨rfl, rfl, rfl, rfl⟩

/-- C10: on both endpoints, a filter supplied as the empty string produces
the same invocation text as the same filter omitted: Python "not x" holds
for both, so both are prepared to the literal null. -/
theorem emptyFilter_same_stmt (g e i r d : Option String) (l : Int) :
    uiDataStmt g e i r d l =
      uiDataStmt (omitEmpty g) (omitEmpty e) (omitEmpty i) (omitEmpty r) (omitEmpty d) l ∧
    uiDataFileStmt g e i r d l =
      uiDataFileStmt (omitEmpty g) (omitEmpty e) (omitEmpty i) (omitEmpty r) (omitEmpty d) l := by
  have hp : ∀ x, prepFilter (omitEmpty x) = prepFilter x := by
    intro x
    cases x with
    | none => rfl
    | some v =>
      by_cases hv : v = ""
      · simp [omitEmpty, prepFilter, hv]
      · simp [omitEmpty, prepFilter, hv]
  constructor <;> simp [uiDataStmt, uiDataFileStmt, hp]
